import Mathlib

/-!
Shallow embedding of `src/components/layout.js` from the code-blog repository:
the `DarkModeToggle` component (a `react-switch` control bound to the
`use-dark-mode` hook) and the `Layout` class component's `render` method,
together with the theme-flip handler shown in the repository's accompanying
tutorial document.
-/

namespace CodeBlog

/-- The initial value passed to the dark-mode hook in `DarkModeToggle`:
`useDarkMode(false)` (layout.js line 11). -/
def darkModeDefault : Bool := false

/-- Modelled from the spec: the external `use-dark-mode` package's state holder
reads a persisted boolean preference from external storage on load; when
storage is unavailable or holds no value, it falls back to the initial value
supplied by the caller, silently and without failure (the function is total
into `Bool`; no error value exists). -/
def useDarkModeValue (initial : Bool) (stored : Option Bool) : Bool :=
  stored.getD initial

/-- Modelled from the spec: the theme state holder's `toggle` operation flips
the boolean flag. This is the boolean form of the tutorial's switch handler
`theme.updateTheme(theme.name === "light" ? "dark" : "light")` and of the
external `use-dark-mode` hook's `toggle` wired to the switch's `onChange`. -/
def toggle (isDark : Bool) : Bool := !isDark

/-- The tutorial's string-valued theme update argument:
`theme.name === "light" ? "dark" : "light"`. -/
def updateThemeName (name : String) : String :=
  if name = "light" then "dark" else "light"

/-- The props handed to the `react-switch` control by `DarkModeToggle`
(layout.js lines 14-23). Icons are recorded by their `src` asset name and
`alt` text. -/
structure SwitchProps where
  checked : Bool
  onColor : String
  offColor : String
  checkedIconSrc : String
  checkedIconAlt : String
  uncheckedIconSrc : String
  uncheckedIconAlt : String
  boxShadow : String
  activeBoxShadow : String
deriving Repr, DecidableEq

/-- The toggle control rendered by `DarkModeToggle`: a `Switch` whose
`checked` prop is the current dark-mode flag and whose remaining props are the
literals of layout.js lines 14-23. -/
def DarkModeToggle (isDark : Bool) : SwitchProps :=
  { checked := isDark
    onColor := "#222"
    offColor := "#333"
    checkedIconSrc := "moon-icon.svg"
    checkedIconAlt := "moon icon"
    uncheckedIconSrc := "sun-icon.svg"
    uncheckedIconAlt := "sun icon"
    boxShadow := "0 0 2px 3px #B38CD9"
    activeBoxShadow := "0 0 2px 3px #dfb3e6" }

/-- Modelled from the spec: the external `react-switch` control displays the
`checkedIcon` when checked and the `uncheckedIcon` when unchecked. -/
def SwitchProps.displayedIcon (s : SwitchProps) : String :=
  if s.checked then s.checkedIconAlt else s.uncheckedIconAlt

/-- Modelled from the spec: the external `react-switch` control paints the
track with `onColor` when checked and `offColor` when unchecked. -/
def SwitchProps.trackColor (s : SwitchProps) : String :=
  if s.checked then s.onColor else s.offColor

/-- The props of the `Link` inside either heading variant of `Layout.render`
(layout.js lines 41-50 and 61-70): identical inline style in both branches,
target `/`, and the page title as link text. -/
structure LinkProps where
  boxShadow : String
  textDecoration : String
  color : String
  toRoute : String
  text : String
deriving Repr, DecidableEq

/-- The heading (`h1` or `h3`) produced by `Layout.render`. `scaled` records
whether the `...scale(.9)` typography spread was applied (the `h1` branch);
`fontFamily` records the explicit font-family override (the `h3` branch). -/
structure HeaderView where
  level : Nat
  scaled : Bool
  fontFamily : Option String
  margin : Nat
  link : LinkProps
deriving Repr, DecidableEq

/-- The link common to both heading variants of `Layout.render`:
`boxShadow: none, textDecoration: none, color: inherit`, `to={/}`,
with the page title as its text. -/
def linkHome (title : String) : LinkProps :=
  { boxShadow := "none"
    textDecoration := "none"
    color := "inherit"
    toRoute := "/"
    text := title }

/-- The `header` local of `Layout.render` (layout.js lines 30-73): the route
path is compared against `rootPath = PATH_PREFIX + "/"`; at the root the title
is an `h1` with the `scale(.9)` spread and no font-family override, otherwise
an `h3` with the fixed `Montserrat, sans-serif` override; both have
`margin: 0` and wrap the same root link. `pathPfx` embeds the build-time
global `__PATH_PREFIX__`. -/
def layoutHeader (pathPfx pathname title : String) : HeaderView :=
  let rootPath := pathPfx ++ "/"
  if pathname = rootPath then
    { level := 1
      scaled := true
      fontFamily := none
      margin := 0
      link := linkHome title }
  else
    { level := 3
      scaled := false
      fontFamily := some "Montserrat, sans-serif"
      margin := 0
      link := linkHome title }

/-- The tree returned by `Layout.render` (layout.js lines 74-97): a container
holding the route-dependent heading, the `DarkModeToggle` control, and the
children inside `main`. Children are an opaque renderable, embedded as a type
parameter. -/
structure LayoutView (α : Type) where
  headerView : HeaderView
  toggleControl : SwitchProps
  mainChildren : α
deriving Repr, DecidableEq

/-- `Layout.render` as a pure function of its props (`location.pathname`,
`title`, `children`), the build-time `__PATH_PREFIX__`, and the current theme
flag read by the embedded `DarkModeToggle`. -/
def Layout.render (pathPfx pathname title : String) (children : α)
    (isDark : Bool) : LayoutView α :=
  { headerView := layoutHeader pathPfx pathname title
    toggleControl := DarkModeToggle isDark
    mainChildren := children }

/-- The two UI events that touch the theme flag: a re-render of the layout,
and a click on the toggle control (whose `onChange` is `darkMode.toggle`,
layout.js line 15). -/
inductive Event where
  | render
  | toggleClick
deriving Repr, DecidableEq

/-- One step of the page's single-threaded event loop acting on the theme
flag: rendering reads the flag but leaves it unchanged; a toggle click
invokes `toggle`. -/
def stepEvent : Event → Bool → Bool
  | Event.render, s => s
  | Event.toggleClick, s => toggle s

/-- The theme states reachable from the first page load (`useDarkMode(false)`
with no persisted preference) by any sequence of renders and toggle clicks. -/
inductive ThemeReachable : Bool → Prop where
  | init : ThemeReachable darkModeDefault
  | step (e : Event) {s : Bool} : ThemeReachable s → ThemeReachable (stepEvent e s)

/-- C1: for every theme flag value, applying the toggle operation twice
returns the flag to its original value: `toggle (toggle x) = x`. -/
theorem toggle_toggle_roundtrip (x : Bool) : toggle (toggle x) = x := by
  cases x <;> rfl

/-- C2: for every route path, if it equals the site root the layout heading is
a level-1 heading with no styling override, otherwise a level-3 heading with
the fixed `Montserrat, sans-serif` font-family override; in both cases the
heading wraps a link to root. -/
theorem layoutHeader_route_cases (pathPfx pathname title : String) :
    ((pathname = pathPfx ++ "/" →
        (layoutHeader pathPfx pathname title).level = 1 ∧
        (layoutHeader pathPfx pathname title).fontFamily = none) ∧
      (pathname ≠ pathPfx ++ "/" →
        (layoutHeader pathPfx pathname title).level = 3 ∧
        (layoutHeader pathPfx pathname title).fontFamily =
          some "Montserrat, sans-serif")) ∧
    (layoutHeader pathPfx pathname title).link.toRoute = "/" := by
  by_cases h : pathname = pathPfx ++ "/" <;>
    simp [layoutHeader, linkHome, h]

/-- Witness for C2 at the concrete root and non-root paths. -/
theorem layoutHeader_route_cases_witness :
    (layoutHeader "" "/" "T").level = 1 ∧ (layoutHeader "" "/about" "T").level = 3 :=
  ⟨((layoutHeader_route_cases "" "/" "T").1.1 rfl).1,
   ((layoutHeader_route_cases "" "/about" "T").1.2 (by decide)).1⟩

/-- C3: with `isDark = true` the toggle control shows the moon icon on the
dark `#222` track; with `isDark = false` it shows the sun icon on the `#333`
default track; the two states use distinct icons and distinct track colors. -/
theorem darkModeToggle_display :
    (DarkModeToggle true).displayedIcon = "moon icon" ∧
    (DarkModeToggle true).trackColor = "#222" ∧
    (DarkModeToggle false).displayedIcon = "sun icon" ∧
    (DarkModeToggle false).trackColor = "#333" ∧
    (DarkModeToggle true).displayedIcon ≠ (DarkModeToggle false).displayedIcon ∧
    (DarkModeToggle true).trackColor ≠ (DarkModeToggle false).trackColor := by
  refine ⟨rfl, rfl, rfl, rfl, ?_, ?_⟩ <;> decide

/-- C4: rendering the layout at path `/` with title `My Blog` yields a
level-1 heading whose link text is `My Blog` and whose target is `/`; at
`/posts/1` with the same title, a level-3 heading with the same link. -/
theorem layout_render_scenarios :
    (Layout.render "" "/" "My Blog" () false).headerView.level = 1 ∧
    (Layout.render "" "/" "My Blog" () false).headerView.link.text = "My Blog" ∧
    (Layout.render "" "/" "My Blog" () false).headerView.link.toRoute = "/" ∧
    (Layout.render "" "/posts/1" "My Blog" () false).headerView.level = 3 ∧
    (Layout.render "" "/posts/1" "My Blog" () false).headerView.link.text = "My Blog" ∧
    (Layout.render "" "/posts/1" "My Blog" () false).headerView.link.toRoute = "/" := by
  decide

/-- C5: on first load with no stored preference the theme flag is initialized
to the default light `false`, and one toggle from that state yields `true`. -/
theorem initial_load_then_toggle :
    useDarkModeValue darkModeDefault none = false ∧
    toggle (useDarkModeValue darkModeDefault none) = true := by
  decide

/-- C6: when the external persisted-preference storage is unavailable
(`none`), the dark-mode value degrades to the default light `false`;
`useDarkModeValue` is total into `Bool`, so no error is raised or surfaced. -/
theorem storage_unavailable_fail_open :
    useDarkModeValue darkModeDefault none = false ∧
    ∀ stored : Option Bool, ∃ b : Bool, useDarkModeValue darkModeDefault stored = b :=
  ⟨rfl, fun _ => ⟨_, rfl⟩⟩

/-- C7: at every reachable theme state exactly one of the two visual modes is
active — the state is one of the two booleans and not both — and every event
step preserves this two-valued state. -/
theorem reachable_exactly_two_modes (s : Bool) (h : ThemeReachable s) :
    (s = true ∨ s = false) ∧ ¬(s = true ∧ s = false) ∧
    ∀ e : Event, stepEvent e s = true ∨ stepEvent e s = false := by
  refine ⟨?_, ?_, ?_⟩
  · cases s <;> simp
  · cases s <;> simp
  · intro e
    cases stepEvent e s <;> simp

/-- Witness for C7 at the initial state, reachable via `ThemeReachable.init`. -/
theorem reachable_exactly_two_modes_witness :
    (false = true ∨ false = false) ∧ ¬(false = true ∧ false = false) ∧
    ∀ e : Event, stepEvent e false = true ∨ stepEvent e false = false :=
  reachable_exactly_two_modes false ThemeReachable.init

/-- C8: `Layout.render` and `toggle` are total over their whole input domain:
every route path, title, children value and theme flag yields a rendered
result falling into one of the two route cases, and the toggle always yields
one of the two theme states. -/
theorem layout_render_total {α : Type} (pathPfx pathname title : String)
    (children : α) (isDark : Bool) :
    (∃ v : LayoutView α, Layout.render pathPfx pathname title children isDark = v ∧
      (v.headerView.level = 1 ∨ v.headerView.level = 3)) ∧
    (toggle isDark = true ∨ toggle isDark = false) := by
  refine ⟨⟨_, rfl, ?_⟩, ?_⟩
  · by_cases h : pathname = pathPfx ++ "/" <;>
      simp [Layout.render, layoutHeader, h]
  · cases isDark <;> simp [toggle]

/-- C9: the theme flag is mutated only through the toggle operation: a render
step leaves the flag unchanged in every state, and any event step that changes
the flag is a toggle click. -/
theorem only_toggle_mutates (e : Event) (s : Bool) :
    stepEvent Event.render s = s ∧
    (stepEvent e s ≠ s → e = Event.toggleClick) := by
  refine ⟨rfl, ?_⟩
  intro hne
  cases e
  · exact absurd rfl hne
  · rfl

/-- Witness for C9 at the toggle-click event from the light state. -/
theorem only_toggle_mutates_witness :
    stepEvent Event.render false = false ∧ Event.toggleClick = Event.toggleClick :=
  ⟨(only_toggle_mutates Event.toggleClick false).1,
   (only_toggle_mutates Event.toggleClick false).2 (by decide)⟩

/-- C10: the rendered heading is independent of the theme flag: for any fixed
route and title the heading and the children are identical under
`isDark = true` and `isDark = false`, while the toggle control's `checked`
prop tracks the flag. -/
theorem header_independent_of_theme {α : Type} (pathPfx pathname title : String)
    (children : α) :
    (Layout.render pathPfx pathname title children true).headerView =
      (Layout.render pathPfx pathname title children false).headerView ∧
    (Layout.render pathPfx pathname title children true).mainChildren =
      (Layout.render pathPfx pathname title children false).mainChildren ∧
    ∀ isDark : Bool,
      (Layout.render pathPfx pathname title children isDark).toggleControl.checked
        = isDark :=
  ⟨rfl, rfl, fun _ => rfl⟩

end CodeBlog
